import Mathlib

/-!
Verification of the recipe-chat backend (`my-cooking-app/backend/main.py`).

The Python handlers are shallowly embedded as pure Lean functions:
file-system effects become explicit parameters (a `PersistEnv` saying which
I/O operations succeed, and the current content of the summary file), the
LLM provider becomes an oracle `Nat → Except Unit (Option String)` giving the
outcome of each attempt, and `json.loads` is modelled by an executable strict
JSON parser over `List Char`.
-/

namespace CookingApp

/-- The preference counters stored under the `"preferences"` key of
`feedback_summary.json`.  The Python code keeps them in a dict read with
`prefs.get(key, 0)`; a structure of `Nat` fields with the eight signal names
from the code is equivalent (an absent key is a zero field). -/
structure Preferences where
  positive_feedback_count : Nat
  negative_feedback_count : Nat
  make_harder : Nat
  make_easier : Nat
  add_ingredients : Nat
  reduce_ingredients : Nat
  shorter_time : Nat
  longer_time : Nat
deriving DecidableEq, Repr

/-- The empty summary `{"preferences": {}}` that `load_feedback_summary`
returns when the file is absent or unreadable. -/
def emptyPreferences : Preferences :=
  ⟨0, 0, 0, 0, 0, 0, 0, 0⟩

/-- Python `str.lower()` (ASCII case folding, which covers every string the
backend matches against). -/
def pyLower (s : String) : String :=
  String.mk (s.data.map Char.toLower)

/-- Python's substring test `pat in s`. -/
def strIncludes (s pat : String) : Bool :=
  decide (pat.data <:+: s.data)

/-- Lines 101-117 of `main.py`: the preference-summary update performed by the
`/api/feedback` handler.  `message` is the request's message with `None`
already replaced by `""`; the handler lower-cases it once and then runs every
keyword rule (independent `if`s, so several rules may fire). -/
def applyFeedback (ftype : String) (message : String) (prefs : Preferences) :
    Preferences :=
  let msg := pyLower message
  if ftype = "upvote" then
    { prefs with positive_feedback_count := prefs.positive_feedback_count + 1 }
  else
    let p := { prefs with
      negative_feedback_count := prefs.negative_feedback_count + 1 }
    let p := if strIncludes msg "too easy" || strIncludes msg "simple" then
      { p with make_harder := p.make_harder + 1 } else p
    let p := if strIncludes msg "too hard" || strIncludes msg "complex" then
      { p with make_easier := p.make_easier + 1 } else p
    let p := if strIncludes msg "more ingredient" || strIncludes msg "add" then
      { p with add_ingredients := p.add_ingredients + 1 } else p
    let p := if strIncludes msg "less ingredient" || strIncludes msg "simplify" then
      { p with reduce_ingredients := p.reduce_ingredients + 1 } else p
    let p := if strIncludes msg "faster" || strIncludes msg "quick" then
      { p with shorter_time := p.shorter_time + 1 } else p
    let p := if strIncludes msg "longer" || strIncludes msg "slow cook" then
      { p with longer_time := p.longer_time + 1 } else p
    p

/-- The difficulty-axis directive of lines 140-143 of `main.py`, on its own. -/
def difficultyNotes (prefs : Preferences) : List String :=
  if prefs.make_harder > prefs.make_easier then
    ["Make recipes slightly more complex and advanced."]
  else if prefs.make_easier > prefs.make_harder then
    ["Simplify recipes with fewer cooking techniques."]
  else []

/-- The ingredient-axis directive of lines 145-148 of `main.py`, on its own. -/
def ingredientNotes (prefs : Preferences) : List String :=
  if prefs.add_ingredients > prefs.reduce_ingredients then
    ["Include more diverse ingredients."]
  else if prefs.reduce_ingredients > prefs.add_ingredients then
    ["Use fewer ingredients for simpler dishes."]
  else []

/-- The cook-time-axis directive of lines 150-153 of `main.py`, on its own. -/
def timeNotes (prefs : Preferences) : List String :=
  if prefs.shorter_time > prefs.longer_time then
    ["Prioritize faster, quick-cook recipes."]
  else if prefs.longer_time > prefs.shorter_time then
    ["Add more slow-cook or longer recipes for flavor depth."]
  else []

/-- Lines 139-153 of `main.py`: the `tuning_notes` list built by the chat
handler, appending the three axes in program order. -/
def tuning_notes (prefs : Preferences) : List String :=
  let notes : List String := []
  let notes := notes ++
    (if prefs.make_harder > prefs.make_easier then
      ["Make recipes slightly more complex and advanced."]
    else if prefs.make_easier > prefs.make_harder then
      ["Simplify recipes with fewer cooking techniques."]
    else [])
  let notes := notes ++
    (if prefs.add_ingredients > prefs.reduce_ingredients then
      ["Include more diverse ingredients."]
    else if prefs.reduce_ingredients > prefs.add_ingredients then
      ["Use fewer ingredients for simpler dishes."]
    else [])
  let notes := notes ++
    (if prefs.shorter_time > prefs.longer_time then
      ["Prioritize faster, quick-cook recipes."]
    else if prefs.longer_time > prefs.shorter_time then
      ["Add more slow-cook or longer recipes for flavor depth."]
    else [])
  notes

/-- Lines 155-158 of `main.py`: the adaptive tuning block of the prompt. -/
def adaptive_prompt (prefs : Preferences) : String :=
  "Based on user feedback, adjust your style accordingly:\n" ++
    (if tuning_notes prefs ≠ [] then
      String.intercalate "\n" ((tuning_notes prefs).map (fun note => "- " ++ note))
    else "- Maintain your current balance.")

/-- Lines 161-166 of `main.py`: the system prompt, embedding the adaptive
tuning block. -/
def system_prompt (prefs : Preferences) : String :=
  "You are a helpful and creative recipe builder who can also chat casually.\n" ++
  "If the user asks about recipes or ingredients, respond with a valid JSON recipe using the schema below.\n" ++
  "Otherwise, respond conversationally in plain text.\n\n" ++
  adaptive_prompt prefs ++ "\n"

/-- Line 169 of `main.py`: the fixed recipe trigger keywords. -/
def recipe_triggers : List String :=
  ["recipe", "cook", "ingredients", "dish", "meal", "food", "bake", "grill"]

/-- Line 170 of `main.py`: recipe-intent detection,
`any(word in user_input.lower() for word in recipe_triggers)`. -/
def wants_recipe (user_input : String) : Bool :=
  recipe_triggers.any (fun word => strIncludes (pyLower user_input) word)

/-- A caller-supplied history message (`ChatMessage` pydantic model). -/
structure ChatMessage where
  role : String
  text : String
deriving DecidableEq, Repr

/-- Python `str.capitalize()`: first character upper-cased, the rest
lower-cased (ASCII model). -/
def pyCapitalize (s : String) : String :=
  match s.data with
  | [] => ""
  | c :: cs => String.mk (c.toUpper :: cs.map Char.toLower)

/-- Lines 173-176 of `main.py`: the serialized conversation, `"Role: text"`
lines joined by newlines, a separating newline when the history is non-empty,
then `"User: <message>"`. -/
def conversationText (history : List ChatMessage) (user_input : String) : String :=
  let conv := String.intercalate "\n"
    (history.map (fun m => pyCapitalize m.role ++ ": " ++ m.text))
  let conv := if conv ≠ "" then conv ++ "\n" else conv
  conv ++ "User: " ++ user_input

/-- Lines 179-201 of `main.py`: the trailing instruction block, selected by
the recipe-intent flag. -/
def instructionText (wantsRecipe : Bool) : String :=
  if wantsRecipe then
    "\nNow generate a recipe in valid JSON format using this schema:\n" ++
    "\x7b\n" ++
    "  \"recipes\": [\n" ++
    "    \x7b\n" ++
    "      \"name\": \"Recipe Name\",\n" ++
    "      \"ingredients\": [\"list\", \"of\", \"ingredients\"],\n" ++
    "      \"instructions\": [\"step\", \"by\", \"step\", \"instructions\"],\n" ++
    "      \"cookingTime\": \"estimated time\",\n" ++
    "      \"difficulty\": \"Easy | Medium | Hard\",\n" ++
    "      \"nutrition\": \x7b\n" ++
    "        \"calories\": 450,\n" ++
    "        \"protein\": \"12g\",\n" ++
    "        \"carbs\": \"60g\"\n" ++
    "      \x7d,\n" ++
    "      \"otherInfo\": \x7b\"optional\": \"any extra notes\"\x7d\n" ++
    "    \x7d\n" ++
    "  ]\n" ++
    "\x7d"
  else
    "\nRespond conversationally in natural language, not JSON."

/-- Line 203 of `main.py`: the full prompt sent to the provider. -/
def full_prompt (prefs : Preferences) (history : List ChatMessage)
    (user_input : String) : String :=
  "System: " ++ system_prompt prefs ++ "\n\n" ++
    conversationText history user_input ++ "\n" ++
    instructionText (wants_recipe user_input)

/-- The `FeedbackRequest` pydantic model: `type` and optional `message`. -/
structure FeedbackRequest where
  type : String
  message : Option String
deriving DecidableEq, Repr

/-- Which file-system operations succeed while a feedback request is handled.
`appendFails`: the bare `open("feedback_log.jsonl", "a")` block raises;
`loadFails`: reading/parsing `feedback_summary.json` raises (caught inside
`load_feedback_summary`); `saveFails`: writing the summary raises (caught
inside `save_feedback_summary`). -/
structure PersistEnv where
  appendFails : Bool
  loadFails : Bool
  saveFails : Bool
deriving DecidableEq, Repr

/-- Lines 55-63 of `main.py`, `load_feedback_summary`: an absent file or a
read/parse failure yields the empty summary (the failure is logged and
swallowed); otherwise the file's preferences are returned. -/
def load_feedback_summary (env : PersistEnv) (file : Option Preferences) :
    Preferences :=
  match file with
  | none => emptyPreferences
  | some p => if env.loadFails then emptyPreferences else p

/-- The JSON body returned by the feedback handler on its normal path. -/
structure FeedbackResponse where
  status : String
  message : String
deriving DecidableEq, Repr

/-- Lines 76-122 of `main.py`, the `/api/feedback` handler.  The raw-event
append (line 91) is NOT wrapped in a `try`/`except`, so when it fails the
exception escapes the handler (modelled as `.error`).  The summary load and
save swallow their own failures; a failed save leaves the file unchanged.
Returns the HTTP-level outcome together with the summary file afterwards. -/
def feedbackEndpoint (req : FeedbackRequest) (env : PersistEnv)
    (file : Option Preferences) :
    Except String (FeedbackResponse × Option Preferences) :=
  if env.appendFails then
    .error "unhandled exception: appending to feedback_log.jsonl failed"
  else
    let summary := load_feedback_summary env file
    let prefs := applyFeedback req.type (req.message.getD "") summary
    let file2 := if env.saveFails then file else some prefs
    .ok ({ status := "success", message := "Feedback received" }, file2)

/-- A JSON value as produced by Python's `json.loads`.  Numbers are kept as
`mantissa × 10 ^ exp10` (mantissa carries the sign), which is exact for every
JSON numeral. -/
inductive Json where
  | null
  | bool (b : Bool)
  | num (mantissa : Int) (exp10 : Int)
  | str (s : String)
  | arr (elems : List Json)
  | obj (members : List (String × Json))

/-- JSON insignificant whitespace. -/
def jsonWs (c : Char) : Bool :=
  c = ' ' || c = '\t' || c = '\n' || c = '\r'

/-- Drop leading JSON whitespace. -/
def skipWs : List Char → List Char
  | [] => []
  | c :: cs => if jsonWs c then skipWs cs else c :: cs

/-- Value of a hexadecimal digit. -/
def hexVal (c : Char) : Option Nat :=
  if 48 ≤ c.toNat ∧ c.toNat ≤ 57 then some (c.toNat - 48)
  else if 97 ≤ c.toNat ∧ c.toNat ≤ 102 then some (c.toNat - 87)
  else if 65 ≤ c.toNat ∧ c.toNat ≤ 70 then some (c.toNat - 55)
  else none

/-- Parse the body of a JSON string (the opening quote already consumed):
returns the decoded characters and the remaining input. -/
def parseStringBody : List Char → Option (List Char × List Char)
  | '"' :: rest => some ([], rest)
  | '\\' :: '"' :: r => (parseStringBody r).map (fun p => ('"' :: p.1, p.2))
  | '\\' :: '\\' :: r => (parseStringBody r).map (fun p => ('\\' :: p.1, p.2))
  | '\\' :: '/' :: r => (parseStringBody r).map (fun p => ('/' :: p.1, p.2))
  | '\\' :: 'b' :: r => (parseStringBody r).map (fun p => ('\x08' :: p.1, p.2))
  | '\\' :: 'f' :: r => (parseStringBody r).map (fun p => ('\x0c' :: p.1, p.2))
  | '\\' :: 'n' :: r => (parseStringBody r).map (fun p => ('\n' :: p.1, p.2))
  | '\\' :: 'r' :: r => (parseStringBody r).map (fun p => ('\r' :: p.1, p.2))
  | '\\' :: 't' :: r => (parseStringBody r).map (fun p => ('\t' :: p.1, p.2))
  | '\\' :: 'u' :: h1 :: h2 :: h3 :: h4 :: r =>
    match hexVal h1, hexVal h2, hexVal h3, hexVal h4 with
    | some a, some b, some c, some d =>
      (parseStringBody r).map
        (fun p => (Char.ofNat (((a * 16 + b) * 16 + c) * 16 + d) :: p.1, p.2))
    | _, _, _, _ => none
  | '\\' :: _ => none
  | c :: rest =>
    if c.toNat < 32 then none
    else (parseStringBody rest).map (fun p => (c :: p.1, p.2))
  | [] => none

/-- Consume a maximal run of decimal digits. -/
def takeDigits : List Char → List Nat × List Char
  | c :: cs =>
    if 48 ≤ c.toNat ∧ c.toNat ≤ 57 then
      let (ds, rest) := takeDigits cs
      ((c.toNat - 48) :: ds, rest)
    else ([], c :: cs)
  | [] => ([], [])

/-- Digits to the natural number they denote. -/
def digitsToNat (ds : List Nat) : Nat :=
  ds.foldl (fun a d => a * 10 + d) 0

/-- Parse an optional JSON fraction part `.digits`. -/
def parseFrac : List Char → Option (List Nat × List Char)
  | '.' :: r =>
    match takeDigits r with
    | ([], _) => none
    | (ds, rest) => some (ds, rest)
  | cs => some ([], cs)

/-- Parse an optional JSON exponent part `e[+-]digits`, as a signed power of
ten. -/
def parseExp : List Char → Option (Int × List Char)
  | c :: r =>
    if c = 'e' ∨ c = 'E' then
      let (eneg, r2) : Bool × List Char := match r with
        | '+' :: rr => (false, rr)
        | '-' :: rr => (true, rr)
        | _ => (false, r)
      match takeDigits r2 with
      | ([], _) => none
      | (ds, rest) =>
        some ((if eneg then -(digitsToNat ds : Int) else (digitsToNat ds : Int)), rest)
    else some (0, c :: r)
  | [] => some (0, [])

/-- Parse a JSON number (first character already known to be `-` or a digit).
JSON forbids a leading zero on a multi-digit integer part and requires at
least one digit in fraction and exponent. -/
def parseNumber (cs : List Char) : Option (Json × List Char) :=
  let (neg, cs1) : Bool × List Char := match cs with
    | '-' :: r => (true, r)
    | _ => (false, cs)
  match takeDigits cs1 with
  | ([], _) => none
  | (intDs, rest1) =>
    if intDs.length > 1 ∧ intDs.head? = some 0 then none
    else
      match parseFrac rest1 with
      | none => none
      | some (fracDs, rest2) =>
        match parseExp rest2 with
        | none => none
        | some (e, rest3) =>
          let mant : Int := Int.ofNat (digitsToNat (intDs ++ fracDs))
          let mant := if neg then -mant else mant
          some (Json.num mant (e - Int.ofNat fracDs.length), rest3)

mutual

/-- Parse one JSON value (fuel-bounded recursive-descent). -/
def parseValue : Nat → List Char → Option (Json × List Char)
  | 0, _ => none
  | Nat.succ fuel, cs =>
    match skipWs cs with
    | 'n' :: 'u' :: 'l' :: 'l' :: rest => some (.null, rest)
    | 't' :: 'r' :: 'u' :: 'e' :: rest => some (.bool true, rest)
    | 'f' :: 'a' :: 'l' :: 's' :: 'e' :: rest => some (.bool false, rest)
    | '"' :: rest =>
      (parseStringBody rest).map (fun p => (.str (String.mk p.1), p.2))
    | '[' :: rest =>
      match skipWs rest with
      | ']' :: rest2 => some (.arr [], rest2)
      | rest2 => (parseElements fuel rest2).map (fun p => (.arr p.1, p.2))
    | '\x7b' :: rest =>
      match skipWs rest with
      | '\x7d' :: rest2 => some (.obj [], rest2)
      | rest2 => (parseMembers fuel rest2).map (fun p => (.obj p.1, p.2))
    | c :: rest =>
      if c = '-' ∨ (48 ≤ c.toNat ∧ c.toNat ≤ 57) then parseNumber (c :: rest)
      else none
    | [] => none

/-- Parse the non-empty element list of a JSON array, up to and including the
closing bracket. -/
def parseElements : Nat → List Char → Option (List Json × List Char)
  | 0, _ => none
  | Nat.succ fuel, cs =>
    match parseValue fuel cs with
    | none => none
    | some (v, rest) =>
      match skipWs rest with
      | ',' :: rest2 => (parseElements fuel rest2).map (fun p => (v :: p.1, p.2))
      | ']' :: rest2 => some ([v], rest2)
      | _ => none

/-- Parse the non-empty member list of a JSON object, up to and including the
closing brace. -/
def parseMembers : Nat → List Char → Option (List (String × Json) × List Char)
  | 0, _ => none
  | Nat.succ fuel, cs =>
    match skipWs cs with
    | '"' :: rest =>
      match parseStringBody rest with
      | none => none
      | some (k, rest1) =>
        match skipWs rest1 with
        | ':' :: rest2 =>
          match parseValue fuel rest2 with
          | none => none
          | some (v, rest3) =>
            match skipWs rest3 with
            | ',' :: rest4 =>
              (parseMembers fuel rest4).map
                (fun p => ((String.mk k, v) :: p.1, p.2))
            | '\x7d' :: rest4 => some ([(String.mk k, v)], rest4)
            | _ => none
        | _ => none
    | _ => none

end

/-- Python `json.loads`: parse the whole text as one strict JSON document,
allowing surrounding whitespace and nothing else.  (The out-of-spec CPython
extensions `NaN`/`Infinity` are outside the model.) -/
def json_loads (s : String) : Option Json :=
  match parseValue (2 * s.data.length + 4) s.data with
  | some (v, rest) => if skipWs rest = [] then some v else none
  | none => none

/-- Python truthiness `bool(x)` on a decoded JSON value: `None`, `False`,
zero, and empty strings/lists/dicts are falsy. -/
def pyTruthy : Json → Bool
  | .null => false
  | .bool b => b
  | .num m _ => m != 0
  | .str s => !s.data.isEmpty
  | .arr xs => !xs.isEmpty
  | .obj kvs => !kvs.isEmpty

/-- The chat reply payload: either a decoded JSON object or plain text. -/
inductive ReplyPayload where
  | jsonVal (j : Json)
  | text (s : String)

/-- The JSON body of the `/api/chat` response. -/
structure ChatResponse where
  reply : ReplyPayload
  is_json : Bool

/-- Lines 215-226 of `main.py`: interpretation of the provider's text.
`parsed_output` stays `None` unless the user wanted a recipe and the text
parses; the response uses Python truthiness on it twice
(`parsed_output if parsed_output else reply_text` and
`bool(parsed_output)`), so a parsed-but-falsy value falls back to the raw
text with `is_json = False`. -/
def interpretReply (reply_text : String) (wantsRecipe : Bool) : ChatResponse :=
  let parsed : Option Json := if wantsRecipe then json_loads reply_text else none
  match parsed with
  | some j =>
    if pyTruthy j then ⟨.jsonVal j, true⟩ else ⟨.text reply_text, false⟩
  | none => ⟨.text reply_text, false⟩

/-- Lines 232-235 of `main.py`: the degraded response returned after the
retry loop is exhausted. -/
def failureResponse : ChatResponse :=
  ⟨.text "Error: Failed to get a response from Gemini after multiple attempts.", false⟩

/-- Observable trace of the retry loop: how many provider calls were made and
which `time.sleep` durations (seconds) ran, in order. -/
structure GenTrace where
  calls : Nat
  sleeps : List Nat
deriving DecidableEq, Repr

/-- Lines 207-235 of `main.py`: `for attempt in range(3)`, each iteration
calling the provider (`oracle attempt` yields `response.text`, an optional
string, or raises), returning the interpreted response on success, and on
failure sleeping `2 ** attempt` seconds before the next iteration; after the
loop the degraded sentinel is returned.  The first argument of the recursion
is the number of iterations left, the second the current attempt index. -/
def attemptLoop (oracle : Nat → Except Unit (Option String)) (wantsRecipe : Bool) :
    Nat → Nat → GenTrace × ChatResponse
  | 0, _ => (⟨0, []⟩, failureResponse)
  | Nat.succ fuel, attempt =>
    match oracle attempt with
    | .ok txt =>
      let reply_text := match txt with
        | none => "(No response from model)"
        | some s => if s = "" then "(No response from model)" else s
      (⟨1, []⟩, interpretReply reply_text wantsRecipe)
    | .error _ =>
      let (tr, resp) := attemptLoop oracle wantsRecipe fuel (attempt + 1)
      (⟨tr.calls + 1, 2 ^ attempt :: tr.sleeps⟩, resp)

/-- The chat handler's bounded-retry generate step: three iterations starting
at attempt index 0. -/
def chatGenerate (oracle : Nat → Except Unit (Option String))
    (wantsRecipe : Bool) : GenTrace × ChatResponse :=
  attemptLoop oracle wantsRecipe 3 0

/-- Whether an HTTP-level outcome of the feedback endpoint is the success
body `{"status": "success", "message": "Feedback received"}`. -/
def isSuccessResponse (r : Except String (FeedbackResponse × Option Preferences)) :
    Bool :=
  match r with
  | .ok (resp, _) => resp.status == "success" && resp.message == "Feedback received"
  | .error _ => false

/-- The string `pat` occurs contiguously inside `s` (Python `pat in s`, as a
proposition). -/
def strContains (s pat : String) : Prop :=
  pat.data <:+: s.data

instance (s pat : String) : Decidable (strContains s pat) :=
  inferInstanceAs (Decidable (pat.data <:+: s.data))

theorem strContains_append_left (s t pat : String) (h : strContains s pat) :
    strContains (s ++ t) pat := by
  obtain ⟨u, v, huv⟩ := h
  exact ⟨u, v ++ t.data, by rw [show (s ++ t).data = s.data ++ t.data from rfl, ← huv]; simp⟩

theorem strContains_append_right (s t pat : String) (h : strContains t pat) :
    strContains (s ++ t) pat := by
  obtain ⟨u, v, huv⟩ := h
  exact ⟨s.data ++ u, v, by rw [show (s ++ t).data = s.data ++ t.data from rfl, ← huv]; simp⟩

theorem tuning_notes_eq_axes (p : Preferences) :
    tuning_notes p = difficultyNotes p ++ ingredientNotes p ++ timeNotes p := rfl

/-- Normal form of the summary update on the non-upvote branch: increment
`negative_feedback_count` and each signal whose (independent) keyword rule
matches the lower-cased message. -/
theorem applyFeedback_not_upvote_eq (ftype message : String) (p : Preferences)
    (h : ftype ≠ "upvote") :
    applyFeedback ftype message p = { p with
      negative_feedback_count := p.negative_feedback_count + 1,
      make_harder := p.make_harder +
        (if strIncludes (pyLower message) "too easy" ||
            strIncludes (pyLower message) "simple" then 1 else 0),
      make_easier := p.make_easier +
        (if strIncludes (pyLower message) "too hard" ||
            strIncludes (pyLower message) "complex" then 1 else 0),
      add_ingredients := p.add_ingredients +
        (if strIncludes (pyLower message) "more ingredient" ||
            strIncludes (pyLower message) "add" then 1 else 0),
      reduce_ingredients := p.reduce_ingredients +
        (if strIncludes (pyLower message) "less ingredient" ||
            strIncludes (pyLower message) "simplify" then 1 else 0),
      shorter_time := p.shorter_time +
        (if strIncludes (pyLower message) "faster" ||
            strIncludes (pyLower message) "quick" then 1 else 0),
      longer_time := p.longer_time +
        (if strIncludes (pyLower message) "longer" ||
            strIncludes (pyLower message) "slow cook" then 1 else 0) } := by
  unfold applyFeedback
  rw [if_neg h]
  split_ifs <;> rfl

/-- A tuning directive of the adaptive block is a substring of every full
prompt built from the same preference counters. -/
theorem strContains_full_prompt_of_adaptive (p : Preferences)
    (history : List ChatMessage) (user_input : String) (pat : String)
    (h : strContains (adaptive_prompt p) pat) :
    strContains (full_prompt p history user_input) pat := by
  unfold full_prompt system_prompt
  apply strContains_append_left
  apply strContains_append_left
  apply strContains_append_left
  apply strContains_append_left
  apply strContains_append_right
  apply strContains_append_left
  apply strContains_append_right
  exact h

/-- C1 (counterexample): the claim that the feedback handler returns the
success response for every state of the persistence layer is false.  When the
raw-event append to `feedback_log.jsonl` fails (line 91 of `main.py` is not
wrapped in exception handling), the exception escapes the handler and the
caller does not receive the success body. -/
theorem C1_counterexample :
    isSuccessResponse
      (feedbackEndpoint ⟨"upvote", some "great"⟩ ⟨true, false, false⟩ none)
      = false := rfl

/-- C1 (amended): for every feedback request, provided the raw-event append
to `feedback_log.jsonl` succeeds, the handler returns the success response
`{status: "success", message: "Feedback received"}`; failures of the summary
load and of the summary save are handled internally (logged) and never
surfaced to the HTTP caller. -/
theorem C1_success_when_append_ok (req : FeedbackRequest) (env : PersistEnv)
    (file : Option Preferences) (h : env.appendFails = false) :
    isSuccessResponse (feedbackEndpoint req env file) = true := by
  unfold feedbackEndpoint
  rw [if_neg (by simp [h])]
  rfl

/-- C1 witness: a concrete request against an environment where the append
succeeds but both the summary load and the summary save fail still yields
the success response. -/
theorem C1_witness :
    isSuccessResponse
      (feedbackEndpoint ⟨"downvote", some "too salty"⟩ ⟨false, true, true⟩
        (some emptyPreferences)) = true :=
  C1_success_when_append_ok ⟨"downvote", some "too salty"⟩ ⟨false, true, true⟩
    (some emptyPreferences) rfl

/-- C2: on persistent provider failure the generate loop makes exactly 3
provider calls (no 4th), the synchronous waits run the exponentially doubling
schedule `2 ^ attempt` seconds — base 1 s between attempts 1 and 2, 2 s
between attempts 2 and 3, and a final 4 s sleep after the last failure — and
the handler returns the degraded sentinel (`is_json = false` with an
explanatory reply) instead of raising. -/
theorem C2_retry_exhaustion (oracle : Nat → Except Unit (Option String))
    (wantsRecipe : Bool) (h : ∀ n, oracle n = .error ()) :
    (chatGenerate oracle wantsRecipe).1.calls = 3 ∧
    ((chatGenerate oracle wantsRecipe).1.sleeps.take 2 = [1, 2] ∧
      (chatGenerate oracle wantsRecipe).1.sleeps = [1, 2, 4]) ∧
    (chatGenerate oracle wantsRecipe).2 =
      ⟨.text "Error: Failed to get a response from Gemini after multiple attempts.",
        false⟩ := by
  simp [chatGenerate, attemptLoop, h, failureResponse]

/-- C2 witness: the retry-exhaustion theorem applied to the concrete
always-failing provider. -/
theorem C2_witness :
    (chatGenerate (fun _ => .error ()) true).1.calls = 3 ∧
    ((chatGenerate (fun _ => .error ()) true).1.sleeps.take 2 = [1, 2] ∧
      (chatGenerate (fun _ => .error ()) true).1.sleeps = [1, 2, 4]) ∧
    (chatGenerate (fun _ => .error ()) true).2 =
      ⟨.text "Error: Failed to get a response from Gemini after multiple attempts.",
        false⟩ :=
  C2_retry_exhaustion (fun _ => .error ()) true (fun _ => rfl)

/-- C3 (counterexample): the claim that a successful parse always yields
`(parsedObject, true)` is false.  `"\x7b\x7d"` parses successfully to the empty
object, yet the handler returns the raw text with `is_json = false`, because
`parsed_output if parsed_output else reply_text` and `bool(parsed_output)`
use Python truthiness and the empty dict is falsy. -/
theorem C3_counterexample :
    json_loads "\x7b\x7d" = some (Json.obj []) ∧
    interpretReply "\x7b\x7d" true = ⟨.text "\x7b\x7d", false⟩ :=
  ⟨rfl, rfl⟩

/-- C3 (amended): if `wantsRecipe` is false the interpreter returns
`(rawText, false)`; if `wantsRecipe` is true and the full raw text parses as
JSON to a truthy value it returns `(parsedObject, true)`; a parse producing a
falsy value (empty object/array/string, zero, `null`, `false`) or a failed
parse returns `(rawText, false)`.  The claim's three concrete examples hold as
stated. -/
theorem C3_interpret_amended :
    (∀ raw, interpretReply raw false = ⟨.text raw, false⟩) ∧
    (∀ raw j, json_loads raw = some j → pyTruthy j = true →
      interpretReply raw true = ⟨.jsonVal j, true⟩) ∧
    (∀ raw j, json_loads raw = some j → pyTruthy j = false →
      interpretReply raw true = ⟨.text raw, false⟩) ∧
    (∀ raw, json_loads raw = none → interpretReply raw true = ⟨.text raw, false⟩) ∧
    interpretReply "\x7b\"recipes\":[]\x7d" true =
      ⟨.jsonVal (Json.obj [("recipes", Json.arr [])]), true⟩ ∧
    interpretReply "not json" true = ⟨.text "not json", false⟩ ∧
    interpretReply "hello" false = ⟨.text "hello", false⟩ := by
  refine ⟨fun raw => rfl, ?_, ?_, ?_, rfl, rfl, rfl⟩
  · intro raw j hp ht
    simp [interpretReply, hp, ht]
  · intro raw j hp ht
    simp [interpretReply, hp, ht]
  · intro raw hp
    simp [interpretReply, hp]

/-- C3 witness: the amended theorem applied to `"0"`, which parses to the
falsy number zero and therefore falls back to the raw text. -/
theorem C3_witness :
    interpretReply "0" true = ⟨.text "0", false⟩ :=
  C3_interpret_amended.2.2.1 "0" (Json.num 0 0) rfl rfl

/-- C4: for every preference-counter mapping and each of the three axes, a
strictly greater count on one side puts exactly that side's directive in the
tuning notes (and a tie, including both zero, emits neither directive of the
axis). -/
theorem C4_axis_directives (p : Preferences) :
    (("Make recipes slightly more complex and advanced." ∈ tuning_notes p) ↔
      p.make_harder > p.make_easier) ∧
    (("Simplify recipes with fewer cooking techniques." ∈ tuning_notes p) ↔
      p.make_easier > p.make_harder) ∧
    (("Include more diverse ingredients." ∈ tuning_notes p) ↔
      p.add_ingredients > p.reduce_ingredients) ∧
    (("Use fewer ingredients for simpler dishes." ∈ tuning_notes p) ↔
      p.reduce_ingredients > p.add_ingredients) ∧
    (("Prioritize faster, quick-cook recipes." ∈ tuning_notes p) ↔
      p.shorter_time > p.longer_time) ∧
    (("Add more slow-cook or longer recipes for flavor depth." ∈ tuning_notes p) ↔
      p.longer_time > p.shorter_time) := by
  rw [tuning_notes_eq_axes]
  unfold difficultyNotes ingredientNotes timeNotes
  split_ifs <;> simp_all <;> omega

/-- C4 witness: with counters `make_harder = 2 > make_easier = 1` the "more
complex" directive is present. -/
theorem C4_witness :
    "Make recipes slightly more complex and advanced." ∈
      tuning_notes ⟨0, 0, 2, 1, 0, 0, 0, 0⟩ :=
  (C4_axis_directives ⟨0, 0, 2, 1, 0, 0, 0, 0⟩).1.mpr (by decide)

/-- C5: the tuning notes are a deterministic function of the counters alone,
listed in the fixed order difficulty, then ingredients, then time; and when
no axis emits a directive, the tuning block is exactly the single default
"maintain current balance" directive. -/
theorem C5_order_and_default (p : Preferences) :
    tuning_notes p = difficultyNotes p ++ ingredientNotes p ++ timeNotes p ∧
    (tuning_notes p = [] →
      adaptive_prompt p =
        "Based on user feedback, adjust your style accordingly:\n- Maintain your current balance.") := by
  refine ⟨tuning_notes_eq_axes p, fun h => ?_⟩
  rw [adaptive_prompt, if_neg (by simp [h])]
  rfl

/-- C5 witness: with all counters zero no axis fires and the block is the
single default directive. -/
theorem C5_witness :
    tuning_notes emptyPreferences = [] ∧
    adaptive_prompt emptyPreferences =
      "Based on user feedback, adjust your style accordingly:\n- Maintain your current balance." :=
  ⟨rfl, (C5_order_and_default emptyPreferences).2 rfl⟩

/-- C6: an upvote always increments exactly `positive_feedback_count`; a
downvote always increments `negative_feedback_count` and additionally
increments exactly those signals whose trigger substrings occur
case-insensitively in the message (all matching rules fire, no mutual
exclusion); and `classify("downvote", "too hard and too easy")` increments
`make_harder`, `make_easier` and `negative_feedback_count` only. -/
theorem C6_classification (p : Preferences) (message : String) :
    (applyFeedback "upvote" message p =
      { p with positive_feedback_count := p.positive_feedback_count + 1 }) ∧
    (applyFeedback "downvote" message p = { p with
        negative_feedback_count := p.negative_feedback_count + 1,
        make_harder := p.make_harder +
          (if strIncludes (pyLower message) "too easy" ||
              strIncludes (pyLower message) "simple" then 1 else 0),
        make_easier := p.make_easier +
          (if strIncludes (pyLower message) "too hard" ||
              strIncludes (pyLower message) "complex" then 1 else 0),
        add_ingredients := p.add_ingredients +
          (if strIncludes (pyLower message) "more ingredient" ||
              strIncludes (pyLower message) "add" then 1 else 0),
        reduce_ingredients := p.reduce_ingredients +
          (if strIncludes (pyLower message) "less ingredient" ||
              strIncludes (pyLower message) "simplify" then 1 else 0),
        shorter_time := p.shorter_time +
          (if strIncludes (pyLower message) "faster" ||
              strIncludes (pyLower message) "quick" then 1 else 0),
        longer_time := p.longer_time +
          (if strIncludes (pyLower message) "longer" ||
              strIncludes (pyLower message) "slow cook" then 1 else 0) }) ∧
    applyFeedback "downvote" "too hard and too easy" emptyPreferences =
      ⟨0, 1, 1, 1, 0, 0, 0, 0⟩ := by
  exact ⟨rfl, applyFeedback_not_upvote_eq "downvote" message p (by decide),
    by decide⟩

set_option maxRecDepth 8000 in
/-- C7: starting from an empty preference store, submitting the feedback
`{type: "downvote", message: "too complex, add ingredients"}` (against a
fully working persistence layer) stores the counters
`negative = make_easier = add_ingredients = 1`, and every subsequent chat
request — any history, any message — produces a full prompt containing both
the simplify-difficulty directive and the
"Include more diverse ingredients." directive. -/
theorem C7_end_to_end :
    feedbackEndpoint ⟨"downvote", some "too complex, add ingredients"⟩
        ⟨false, false, false⟩ none =
      .ok (⟨"success", "Feedback received"⟩, some ⟨0, 1, 0, 1, 1, 0, 0, 0⟩) ∧
    ∀ (history : List ChatMessage) (user_input : String),
      strContains (full_prompt ⟨0, 1, 0, 1, 1, 0, 0, 0⟩ history user_input)
        "Simplify recipes with fewer cooking techniques." ∧
      strContains (full_prompt ⟨0, 1, 0, 1, 1, 0, 0, 0⟩ history user_input)
        "Include more diverse ingredients." := by
  refine ⟨rfl, fun history user_input => ⟨?_, ?_⟩⟩
  · exact strContains_full_prompt_of_adaptive _ history user_input _ (by decide)
  · exact strContains_full_prompt_of_adaptive _ history user_input _ (by decide)

/-- C8: recipe-intent detection is true exactly when the lower-cased message
contains one of the eight fixed trigger keywords as a substring; in
particular it is false for "What's a good dessert?" and true for
"give me a recipe". -/
theorem C8_intent_detection :
    (∀ msg : String, wants_recipe msg = true ↔
      ∃ w ∈ recipe_triggers, strIncludes (pyLower msg) w = true) ∧
    wants_recipe "What\x27s a good dessert?" = false ∧
    wants_recipe "give me a recipe" = true := by
  refine ⟨fun msg => ?_, by decide, by decide⟩
  simp [wants_recipe, List.any_eq_true]

/-- C8 witness: the characterization applied to a concrete message containing
the trigger "recipe". -/
theorem C8_witness : wants_recipe "pasta recipe please" = true :=
  (C8_intent_detection.1 "pasta recipe please").mpr ⟨"recipe", by decide, by decide⟩

/-- Componentwise order on preference counters. -/
def prefsLe (p q : Preferences) : Prop :=
  p.positive_feedback_count ≤ q.positive_feedback_count ∧
  p.negative_feedback_count ≤ q.negative_feedback_count ∧
  p.make_harder ≤ q.make_harder ∧
  p.make_easier ≤ q.make_easier ∧
  p.add_ingredients ≤ q.add_ingredients ∧
  p.reduce_ingredients ≤ q.reduce_ingredients ∧
  p.shorter_time ≤ q.shorter_time ∧
  p.longer_time ≤ q.longer_time

/-- C9: every preference counter is monotonically non-decreasing: for every
feedback submission (any type, any message), each signal count after the
update is greater than or equal to its value before; no update path decreases
or deletes a counter.  (The chat endpoint only reads the store.) -/
theorem C9_counters_monotone (ftype message : String) (p : Preferences) :
    prefsLe p (applyFeedback ftype message p) := by
  by_cases h : ftype = "upvote"
  · subst h
    unfold prefsLe applyFeedback
    simp
  · rw [applyFeedback_not_upvote_eq ftype message p h]
    unfold prefsLe
    refine ⟨le_rfl, ?_, ?_, ?_, ?_, ?_, ?_, ?_⟩ <;>
      exact Nat.le_add_right _ _

/-- C9 witness: the monotonicity theorem applied to a concrete downvote. -/
theorem C9_witness :
    prefsLe ⟨1, 2, 3, 4, 5, 6, 7, 8⟩
      (applyFeedback "downvote" "too easy and quick" ⟨1, 2, 3, 4, 5, 6, 7, 8⟩) :=
  C9_counters_monotone "downvote" "too easy and quick" ⟨1, 2, 3, 4, 5, 6, 7, 8⟩

/-- C10: every feedback type other than exactly "upvote" — arbitrary or empty
strings included — is classified as a downvote: the summary update is the
same as for a literal "downvote" (increment `negative_feedback_count` plus
the conditional message rules); no validation rejects unknown types. -/
theorem C10_unknown_types_are_downvotes (ftype message : String)
    (p : Preferences) (h : ftype ≠ "upvote") :
    applyFeedback ftype message p = applyFeedback "downvote" message p :=
  (applyFeedback_not_upvote_eq ftype message p h).trans
    (applyFeedback_not_upvote_eq "downvote" message p (by decide)).symm

/-- C10 witness: an unknown type `"sideways"` updates the summary exactly as a
downvote would. -/
theorem C10_witness :
    applyFeedback "sideways" "too simple" emptyPreferences =
      applyFeedback "downvote" "too simple" emptyPreferences :=
  C10_unknown_types_are_downvotes "sideways" "too simple" emptyPreferences
    (by decide)

end CookingApp
